import Mathlib

/-!
# Verification of the EarCheck cough-analysis core

Shallow embedding of the repository's audio feature-extraction pipeline
(`lib/audio-processor.ts`, class `AudioProcessor`) and of the rule-based
condition classifier (`RuleBasedCoughModel` in the cough-classifier module).

Modelling conventions:
* JavaScript floating-point numbers are modelled as exact real numbers
  (`ℝ` for the signal-processing code, a generic `LinearOrderedField α`
  for the purely arithmetic classifier, which is instantiated at `ℚ` to
  obtain decidable concrete evaluations and at `ℝ` for the end-to-end run).
* A JS number that can be NaN is modelled as `Option α` with `none` = NaN;
  the only operations the classifier applies to such values are `<` and `>`
  comparisons, which in JS are false whenever one side is NaN, exactly as
  `jsGt`/`jsLt` below compute.
* JS division `0/0` (which yields NaN) appears only in `calculateRMS` and
  `calculateZeroCrossingRate` on an empty signal; those functions therefore
  return `Option ℝ`, `none` for the empty signal.
* `new Float32Array(len)` throws a `RangeError` when `len` is negative; this
  is the only exception the analysis pipeline can raise and it is modelled
  by `Except` with the `JSError.rangeErrorNegLength` constructor.
* `Date.now()` is modelled as an explicit `now : ℤ` argument.
* `Array.prototype.sort` is stable (ES2019); with the comparator
  `(a, b) => b.probability - a.probability` it produces the stable
  descending order computed by `sortCondsDesc` below.
-/

namespace EarCheck

/-- A JavaScript number that may be NaN: `none` models NaN. -/
abbrev JSNum (α : Type) := Option α

/-- JS comparison `a > c` for a possibly-NaN `a`: NaN compares false. -/
def jsGt {α : Type} [LinearOrder α] (a : JSNum α) (c : α) : Bool :=
  match a with
  | none => false
  | some x => decide (c < x)

/-- JS comparison `a < c` for a possibly-NaN `a`: NaN compares false. -/
def jsLt {α : Type} [LinearOrder α] (a : JSNum α) (c : α) : Bool :=
  match a with
  | none => false
  | some x => decide (x < c)

/-- The `CoughAnalysis` record produced by `analyzeCoughCharacteristics`.
The four scalar features are JS numbers that can be NaN. -/
structure CoughAnalysis (α : Type) where
  duration : JSNum α
  rms : JSNum α
  zeroCrossingRate : JSNum α
  spectralCentroid : JSNum α
  mfccFeatures : List α
  timestamp : ℤ

/-- One entry of a classification result (`ConditionProbability`). -/
structure ConditionProbability (α : Type) where
  name : String
  probability : α
  confidence : String
deriving DecidableEq

/-- The `CoughClassification` record returned by `predict`. -/
structure CoughClassification (α : Type) where
  conditions : List (ConditionProbability α)
  dominantCondition : String
  overallConfidence : String
  analysisTimestamp : ℤ

variable {α : Type} [LinearOrderedField α]

/-- The loop of `detectWheezing`: `for (let i = 0; i < m.length; i += 13)`
visits exactly the indices `j * 13` for `j < ⌈m.length / 13⌉`, and counts the
strides whose coefficients at offsets 2 and 3 satisfy
`m[i+2] > 0.5 && m[i+3] < -0.3` (out-of-range access yields `undefined`,
whose comparisons are false, exactly like `none` here). -/
def wheezeCount (m : List α) : ℕ :=
  ((List.range ((m.length + 12) / 13)).map (fun j => j * 13)).countP
    (fun i => jsGt (m.get? (i + 2)) (1/2) && jsLt (m.get? (i + 3)) (-(3/10)))

/-- `RuleBasedCoughModel.detectWheezing`: fires when the indicator count
strictly exceeds `mfccFeatures.length / 26` (JS float division). -/
def detectWheezing (m : List α) : Bool :=
  decide ((m.length : α) / 26 < (wheezeCount m : α))

/-- Raw COVID-19 rule score (the `covidScore` accumulator in `predict`). -/
def covidScore (a : CoughAnalysis α) : α :=
  (bif jsGt a.duration (1/2) && jsLt a.duration 2 then 3/10 else 0) +
  (bif jsLt a.rms (1/10) then 1/5 else 0) +
  (bif jsGt a.zeroCrossingRate (1/10) then 1/5 else 0) +
  (bif jsGt a.spectralCentroid 2000 then 3/10 else 0)

/-- Raw Asthma rule score (the `asthmaScore` accumulator in `predict`). -/
def asthmaScore (a : CoughAnalysis α) : α :=
  (bif jsGt a.duration 1 then 3/10 else 0) +
  (bif jsLt a.spectralCentroid 1500 then 3/10 else 0) +
  (bif detectWheezing a.mfccFeatures then 2/5 else 0)

/-- Raw Bronchitis rule score (the `bronchitisScore` accumulator). -/
def bronchitisScore (a : CoughAnalysis α) : α :=
  (bif jsGt a.rms (3/20) then 3/10 else 0) +
  (bif jsGt a.duration (4/5) then 1/5 else 0) +
  (bif jsLt a.spectralCentroid 2000 then 3/10 else 0)

/-- Raw Pneumonia rule score (the `pneumoniaScore` accumulator). -/
def pneumoniaScore (a : CoughAnalysis α) : α :=
  (bif jsGt a.rms (3/25) then 1/5 else 0) +
  (bif jsLt a.duration (3/2) then 1/5 else 0) +
  (bif jsLt a.zeroCrossingRate (2/25) then 3/10 else 0)

/-- The confidence banding expression
`s > 0.6 ? "high" : s > 0.3 ? "medium" : "low"` applied to each raw score. -/
def confBand (s : α) : String :=
  if 3/5 < s then "high" else if 3/10 < s then "medium" else "low"

/-- The four `conditions.push({...})` calls of `predict`, in source order.
Each probability is `Math.min(score, 0.95)`; each confidence is banded from
the raw (uncapped, pre-normalization) score. -/
def mkConditions (a : CoughAnalysis α) : List (ConditionProbability α) :=
  [{ name := "COVID-19", probability := min (covidScore a) (19/20),
     confidence := confBand (covidScore a) },
   { name := "Asthma", probability := min (asthmaScore a) (19/20),
     confidence := confBand (asthmaScore a) },
   { name := "Bronchitis", probability := min (bronchitisScore a) (19/20),
     confidence := confBand (bronchitisScore a) },
   { name := "Pneumonia", probability := min (pneumoniaScore a) (19/20),
     confidence := confBand (pneumoniaScore a) }]

/-- Stable insertion step: a later element is placed after every earlier
element of equal or higher probability, matching JS stable sort with the
comparator `(a, b) => b.probability - a.probability`. -/
def insertCondDesc (x : ConditionProbability α) :
    List (ConditionProbability α) → List (ConditionProbability α)
  | [] => [x]
  | d :: t =>
    if d.probability < x.probability then x :: d :: t else d :: insertCondDesc x t

/-- Stable sort by probability, descending
(`conditions.sort((a, b) => b.probability - a.probability)`). -/
def sortCondsDesc (l : List (ConditionProbability α)) : List (ConditionProbability α) :=
  l.foldl (fun acc x => insertCondDesc x acc) []

/-- `RuleBasedCoughModel.predict`: build the four scored conditions, sort by
probability descending, normalize to percentages when the total is positive,
and read the dominant condition off the head of the list
(`conditions[0]?.name || "Unknown"`). -/
def predict (now : ℤ) (a : CoughAnalysis α) : CoughClassification α :=
  let sorted := sortCondsDesc (mkConditions a)
  let total : α := (sorted.map (fun c => c.probability)).sum
  let conds :=
    if total > 0 then
      sorted.map (fun c => { c with probability := c.probability / total * 100 })
    else sorted
  { conditions := conds
    dominantCondition :=
      match conds.head? with
      | some c => c.name
      | none => "Unknown"
    overallConfidence :=
      match conds.head? with
      | some c => c.confidence
      | none => "low"
    analysisTimestamp := now }

/-- The raw (pre-cap, pre-normalization) score of a named condition. -/
def rawScore (a : CoughAnalysis α) (n : String) : α :=
  if n = "COVID-19" then covidScore a
  else if n = "Asthma" then asthmaScore a
  else if n = "Bronchitis" then bronchitisScore a
  else if n = "Pneumonia" then pneumoniaScore a
  else 0

/-- A frame (one 13-coefficient stride of the feature set) matches the wheeze
pattern when coefficient 2 exceeds 0.5 and coefficient 3 is below -0.3. -/
def frameMatches (fr : List α) : Bool :=
  jsGt (fr.get? 2) (1/2) && jsLt (fr.get? 3) (-(3/10))

/-- Number of matching frames in a frame-chunked feature set. -/
def matchingFrames (frames : List (List α)) : ℕ :=
  frames.countP frameMatches

/-- The exception the pipeline can raise.  `rangeErrorNegLength n` is the JS
`RangeError: invalid typed array length` thrown by `new Float32Array(n)` for
negative `n`.  `invalidInput` is modelled from the spec: the spec's §7 error
taxonomy promises an InvalidInput failure for empty waveforms, but no code
path in the repository constructs such an error. -/
inductive JSError where
  | rangeErrorNegLength (len : ℤ)
  | invalidInput
deriving DecidableEq

noncomputable section

/-- A decoded single-channel waveform (`AudioBuffer`): channel 0 samples and
the sample rate. -/
structure Waveform where
  samples : List ℝ
  sampleRate : ℝ

/-- `AudioBuffer.duration` = sample count / sample rate. -/
def Waveform.duration (w : Waveform) : ℝ :=
  (w.samples.length : ℝ) / w.sampleRate

/-- `AudioProcessor.preEmphasis`: `y[0] = x[0]`, `y[i] = x[i] - a * x[i-1]`. -/
def preEmphasis (x : List ℝ) (a : ℝ) : List ℝ :=
  match x with
  | [] => []
  | h :: t => h :: t.zipWith (fun cur prev => cur - a * prev) (h :: t)

/-- `AudioProcessor.applyHammingWindow`:
`w[n] = frame[n] * (0.54 - 0.46 * cos(2πn/(N-1)))`. -/
def applyHammingWindow (frame : List ℝ) : List ℝ :=
  (List.range frame.length).map (fun n =>
    frame.getD n 0 * (27/50 - 23/50 * Real.cos (2 * Real.pi * n / ((frame.length : ℝ) - 1))))

/-- The `realSum` accumulator of `AudioProcessor.computeFFT` at output index `k`. -/
def dftRe (x : List ℝ) (k : ℕ) : ℝ :=
  ∑ n in Finset.range x.length,
    x.getD n 0 * Real.cos (-2 * Real.pi * k * n / x.length)

/-- The `imagSum` accumulator of `AudioProcessor.computeFFT` at output index `k`. -/
def dftIm (x : List ℝ) (k : ℕ) : ℝ :=
  ∑ n in Finset.range x.length,
    x.getD n 0 * Real.sin (-2 * Real.pi * k * n / x.length)

/-- `AudioProcessor.computeFFT`: the naive direct DFT, producing the
interleaved list `[re 0, im 0, re 1, im 1, ...]` of length `2N`. -/
def computeFFT (x : List ℝ) : List ℝ :=
  ((List.range x.length).map (fun k => [dftRe x k, dftIm x k])).flatten

/-- `AudioProcessor.computeMFCC`: power spectrum over half the interleaved
FFT output, then the simplified log/cosine projection onto 13 coefficients.
The `sampleRate` parameter is accepted (as in the source) but unused. -/
def computeMFCC (frame : List ℝ) (sampleRate : ℝ) : List ℝ :=
  let fft := computeFFT frame
  let m := fft.length / 2
  let power := (List.range m).map (fun i =>
    fft.getD (2 * i) 0 * fft.getD (2 * i) 0 + fft.getD (2 * i + 1) 0 * fft.getD (2 * i + 1) 0)
  (List.range 13).map (fun c : ℕ =>
    ∑ j in Finset.range m,
      Real.log (power.getD j 0 + 1 / 10 ^ 10) *
        Real.cos (Real.pi * (c : ℝ) * ((j : ℝ) + 1/2) / m))

/-- The frame count `Math.floor((N - 2048) / 512) + 1` computed by
`extractMFCCFeatures` (`Math.floor` on a real quotient = `Int.fdiv`). -/
def numFramesZ (n : ℕ) : ℤ :=
  ((n : ℤ) - 2048).fdiv 512 + 1

/-- `AudioProcessor.extractMFCCFeatures`: pre-emphasis (α = 0.97), framing
with window 2048 / hop 512, Hamming window and MFCC per frame, all frame
vectors concatenated.  `new Float32Array(numFrames * 13)` throws a RangeError
when `numFrames` is negative. -/
def extractMFCCFeatures (w : Waveform) : Except JSError (List ℝ) :=
  let pre := preEmphasis w.samples (97/100)
  let numFrames := numFramesZ pre.length
  if numFrames < 0 then Except.error (JSError.rangeErrorNegLength (numFrames * 13))
  else Except.ok
    (((List.range numFrames.toNat).map (fun frame =>
      computeMFCC (applyHammingWindow ((pre.drop (frame * 512)).take 2048)) w.sampleRate)).flatten)

/-- `AudioProcessor.calculateRMS` = `sqrt(sum(x[i]^2) / N)`; on the empty
signal the JS quotient is `0/0` = NaN, hence `none`. -/
def calculateRMS (signal : List ℝ) : Option ℝ :=
  if signal.length = 0 then none
  else some (Real.sqrt ((signal.map (fun s => s * s)).sum / signal.length))

/-- `AudioProcessor.calculateZeroCrossingRate`: adjacent sign-flip count
(`signal[i] >= 0 !== signal[i-1] >= 0`) over sample count; `0/0` = NaN on the
empty signal, hence `none`. -/
def calculateZeroCrossingRate (signal : List ℝ) : Option ℝ :=
  if signal.length = 0 then none
  else some
    ((((signal.zip signal.tail).countP
        (fun p => decide (0 ≤ p.2) != decide (0 ≤ p.1))) : ℝ) / signal.length)

/-- `AudioProcessor.calculateSpectralCentroid`: magnitude-weighted mean of the
bin frequencies `i * sampleRate / (2M)` over half the interleaved FFT output,
returning 0 when the magnitude sum is not positive. -/
def calculateSpectralCentroid (signal : List ℝ) (sampleRate : ℝ) : ℝ :=
  let fft := computeFFT signal
  let m := fft.length / 2
  let weightedSum := ∑ i in Finset.range m,
    ((i : ℝ) * sampleRate / (2 * (m : ℝ))) *
      Real.sqrt (fft.getD (2 * i) 0 * fft.getD (2 * i) 0 +
        fft.getD (2 * i + 1) 0 * fft.getD (2 * i + 1) 0)
  let magnitudeSum := ∑ i in Finset.range m,
    Real.sqrt (fft.getD (2 * i) 0 * fft.getD (2 * i) 0 +
      fft.getD (2 * i + 1) 0 * fft.getD (2 * i + 1) 0)
  if magnitudeSum > 0 then weightedSum / magnitudeSum else 0

/-- `AudioProcessor.analyzeCoughCharacteristics`: assemble the analysis
record; the only failure path is the RangeError raised inside
`extractMFCCFeatures`. -/
def analyzeCoughCharacteristics (w : Waveform) (now : ℤ) :
    Except JSError (CoughAnalysis ℝ) :=
  (extractMFCCFeatures w).map (fun mfcc =>
    { duration := some w.duration
      rms := calculateRMS w.samples
      zeroCrossingRate := calculateZeroCrossingRate w.samples
      spectralCentroid := some (calculateSpectralCentroid w.samples w.sampleRate)
      mfccFeatures := mfcc
      timestamp := now })

/-- Test fixture: the 1-second 44100 Hz all-zero waveform. -/
def zeroWave : Waveform :=
  { samples := List.replicate 44100 0, sampleRate := 44100 }

/-- MFCC vector of one all-zero 2048-sample frame. -/
def zeroFrameMfcc : List ℝ :=
  computeMFCC (List.replicate 2048 0) 44100

/-- The feature set `extractMFCCFeatures` produces for `zeroWave`:
83 identical frames. -/
def zeroMfccFeatures : List ℝ :=
  (List.replicate 83 zeroFrameMfcc).flatten

/-- The analysis record the pipeline produces for `zeroWave`. -/
def zeroRec : CoughAnalysis ℝ :=
  { duration := some 1, rms := some 0, zeroCrossingRate := some 0,
    spectralCentroid := some 0, mfccFeatures := zeroMfccFeatures, timestamp := 0 }

end

/-- A record whose four scalar features are all NaN: every threshold rule
compares false, so all four raw scores are zero. -/
def nanRec : CoughAnalysis ℚ :=
  { duration := none, rms := none, zeroCrossingRate := none,
    spectralCentroid := none, mfccFeatures := [], timestamp := 0 }

/-- A record whose COVID-19 raw score is exactly 0.3 (only the duration rule
fires). -/
def recW3 : CoughAnalysis ℚ :=
  { duration := some 1, rms := some (1/10), zeroCrossingRate := some 0,
    spectralCentroid := some 1600, mfccFeatures := [], timestamp := 0 }

/-- A record whose COVID-19 raw score is exactly 0.6 (duration and centroid
rules fire). -/
def recW6 : CoughAnalysis ℚ :=
  { duration := some 1, rms := some (1/10), zeroCrossingRate := some (1/10),
    spectralCentroid := some 2500, mfccFeatures := [], timestamp := 0 }

/-- Three 13-coefficient frames, the first two matching the wheeze pattern. -/
def frames3 : List (List ℚ) :=
  [[0, 0, 1, -1, 0, 0, 0, 0, 0, 0, 0, 0, 0],
   [0, 0, 1, -1, 0, 0, 0, 0, 0, 0, 0, 0, 0],
   [0, 0, 0, 0, 0, 0, 0, 0, 0, 0, 0, 0, 0]]

/-! ## Lemmas about the classifier -/

section ClassifierLemmas

variable {α : Type} [LinearOrderedField α]

@[simp] lemma jsGt_none (c : α) : jsGt (none : JSNum α) c = false := rfl

@[simp] lemma jsGt_some (x c : α) : jsGt (some x) c = decide (c < x) := rfl

@[simp] lemma jsLt_none (c : α) : jsLt (none : JSNum α) c = false := rfl

@[simp] lemma jsLt_some (x c : α) : jsLt (some x) c = decide (x < c) := rfl

lemma insertCondDesc_perm (x : ConditionProbability α) (l : List (ConditionProbability α)) :
    (insertCondDesc x l).Perm (x :: l) := by
  induction l with
  | nil => simp [insertCondDesc]
  | cons d t ih =>
    by_cases h : d.probability < x.probability
    · simp [insertCondDesc, h]
    · simp only [insertCondDesc, if_neg h]
      exact (ih.cons d).trans (List.Perm.swap x d t)

lemma foldl_insertCondDesc_perm (l acc : List (ConditionProbability α)) :
    (l.foldl (fun acc x => insertCondDesc x acc) acc).Perm (l ++ acc) := by
  induction l generalizing acc with
  | nil => simp
  | cons x t ih =>
    simp only [List.foldl_cons, List.cons_append]
    exact (ih (insertCondDesc x acc)).trans
      ((List.Perm.append_left t (insertCondDesc_perm x acc)).trans List.perm_middle)

lemma sortCondsDesc_perm (l : List (ConditionProbability α)) :
    (sortCondsDesc l).Perm l := by
  simpa using foldl_insertCondDesc_perm l []

lemma cond_zero_nonneg (b : Bool) (x : α) (hx : 0 ≤ x) :
    (0 : α) ≤ bif b then x else 0 := by
  cases b <;> simp [hx]

lemma covidScore_nonneg (a : CoughAnalysis α) : 0 ≤ covidScore a := by
  unfold covidScore
  have h1 := cond_zero_nonneg (jsGt a.duration (1/2) && jsLt a.duration 2)
    ((3:α)/10) (by norm_num)
  have h2 := cond_zero_nonneg (jsLt a.rms (1/10)) ((1:α)/5) (by norm_num)
  have h3 := cond_zero_nonneg (jsGt a.zeroCrossingRate (1/10)) ((1:α)/5) (by norm_num)
  have h4 := cond_zero_nonneg (jsGt a.spectralCentroid 2000) ((3:α)/10) (by norm_num)
  linarith

lemma asthmaScore_nonneg (a : CoughAnalysis α) : 0 ≤ asthmaScore a := by
  unfold asthmaScore
  have h1 := cond_zero_nonneg (jsGt a.duration 1) ((3:α)/10) (by norm_num)
  have h2 := cond_zero_nonneg (jsLt a.spectralCentroid 1500) ((3:α)/10) (by norm_num)
  have h3 := cond_zero_nonneg (detectWheezing a.mfccFeatures) ((2:α)/5) (by norm_num)
  linarith

lemma bronchitisScore_nonneg (a : CoughAnalysis α) : 0 ≤ bronchitisScore a := by
  unfold bronchitisScore
  have h1 := cond_zero_nonneg (jsGt a.rms (3/20)) ((3:α)/10) (by norm_num)
  have h2 := cond_zero_nonneg (jsGt a.duration (4/5)) ((1:α)/5) (by norm_num)
  have h3 := cond_zero_nonneg (jsLt a.spectralCentroid 2000) ((3:α)/10) (by norm_num)
  linarith

lemma pneumoniaScore_nonneg (a : CoughAnalysis α) : 0 ≤ pneumoniaScore a := by
  unfold pneumoniaScore
  have h1 := cond_zero_nonneg (jsGt a.rms (3/25)) ((1:α)/5) (by norm_num)
  have h2 := cond_zero_nonneg (jsLt a.duration (3/2)) ((1:α)/5) (by norm_num)
  have h3 := cond_zero_nonneg (jsLt a.zeroCrossingRate (2/25)) ((3:α)/10) (by norm_num)
  linarith

lemma mkConditions_prob_sum (a : CoughAnalysis α) :
    ((mkConditions a).map (fun c => c.probability)).sum =
      min (covidScore a) (19/20) + (min (asthmaScore a) (19/20) +
        (min (bronchitisScore a) (19/20) + min (pneumoniaScore a) (19/20))) := by
  simp [mkConditions]

lemma mkConditions_confidence (a : CoughAnalysis α) :
    ∀ c ∈ mkConditions a, c.confidence = confBand (rawScore a c.name) := by
  intro c hc
  simp only [mkConditions, List.mem_cons, List.not_mem_nil, or_false] at hc
  rcases hc with h | h | h | h
  · subst h; simp [rawScore]
  · subst h; simp [rawScore]
  · subst h; simp [rawScore]
  · subst h; simp [rawScore]

/-- Every entry of the classification result keeps the name and confidence of
one of the four scored conditions (normalization changes only probability). -/
lemma predict_conditions_shape (now : ℤ) (a : CoughAnalysis α) :
    ∀ c ∈ (predict now a).conditions, ∃ d ∈ mkConditions a,
      c.name = d.name ∧ c.confidence = d.confidence := by
  intro c hc
  simp only [predict] at hc
  by_cases h : ((sortCondsDesc (mkConditions a)).map (fun c => c.probability)).sum > 0
  · rw [if_pos h] at hc
    rcases List.mem_map.1 hc with ⟨d, hd, rfl⟩
    exact ⟨d, (sortCondsDesc_perm (mkConditions a)).mem_iff.1 hd, rfl, rfl⟩
  · rw [if_neg h] at hc
    exact ⟨c, (sortCondsDesc_perm (mkConditions a)).mem_iff.1 hc, rfl, rfl⟩

lemma sum_map_mul_right_list (l : List (ConditionProbability α)) (f : ConditionProbability α → α)
    (r : α) : (l.map (fun c => f c * r)).sum = (l.map f).sum * r := by
  induction l with
  | nil => simp
  | cons x t ih => simp [ih, add_mul]

/-- If the total of the capped scores is positive, the normalized
probabilities sum to exactly 100. -/
lemma predict_probSum (now : ℤ) (a : CoughAnalysis α)
    (h : 0 < ((mkConditions a).map (fun c => c.probability)).sum) :
    (((predict now a).conditions).map (fun c => c.probability)).sum = 100 := by
  have hsum : ((sortCondsDesc (mkConditions a)).map (fun c => c.probability)).sum
      = ((mkConditions a).map (fun c => c.probability)).sum :=
    ((sortCondsDesc_perm (mkConditions a)).map (fun c => c.probability)).sum_eq
  have hpos : 0 < ((sortCondsDesc (mkConditions a)).map (fun c => c.probability)).sum := by
    rw [hsum]; exact h
  simp only [predict]
  rw [if_pos hpos, List.map_map]
  have hfun : ((fun c : ConditionProbability α => c.probability) ∘
      (fun c : ConditionProbability α =>
        { c with probability := c.probability /
            ((sortCondsDesc (mkConditions a)).map (fun c => c.probability)).sum * 100 })) =
      (fun c : ConditionProbability α => c.probability /
        ((sortCondsDesc (mkConditions a)).map (fun c => c.probability)).sum * 100) := rfl
  rw [hfun, sum_map_mul_right_list]
  simp only [div_eq_mul_inv]
  rw [sum_map_mul_right_list, mul_assoc, ← mul_assoc, mul_inv_cancel₀ (ne_of_gt hpos)]
  norm_num

lemma wheezeCount_frame_append (fr l : List α) (h : fr.length = 13) :
    wheezeCount (fr ++ l) =
      wheezeCount l + (if frameMatches fr = true then 1 else 0) := by
  unfold wheezeCount
  have hlen : (fr ++ l).length = 13 + l.length := by simp [h]
  rw [hlen]
  have hq : (13 + l.length + 12) / 13 = (l.length + 12) / 13 + 1 := by omega
  have h2 : (fr ++ l).get? 2 = fr.get? 2 := by
    rw [List.get?_eq_getElem?, List.get?_eq_getElem?,
      List.getElem?_append_left (by omega)]
  have h3 : (fr ++ l).get? 3 = fr.get? 3 := by
    rw [List.get?_eq_getElem?, List.get?_eq_getElem?,
      List.getElem?_append_left (by omega)]
  have hstep2 : ∀ j : ℕ, (fr ++ l).get? ((j + 1) * 13 + 2) = l.get? (j * 13 + 2) := by
    intro j
    rw [List.get?_eq_getElem?, List.get?_eq_getElem?,
      List.getElem?_append_right (by omega), h]
    congr 1
    omega
  have hstep3 : ∀ j : ℕ, (fr ++ l).get? ((j + 1) * 13 + 3) = l.get? (j * 13 + 3) := by
    intro j
    rw [List.get?_eq_getElem?, List.get?_eq_getElem?,
      List.getElem?_append_right (by omega), h]
    congr 1
    omega
  rw [hq, List.range_succ_eq_map, List.map_cons, List.countP_cons, List.map_map,
    List.countP_map, List.countP_map]
  have hcong := List.countP_congr (l := List.range ((l.length + 12) / 13))
    (p := (fun i => jsGt ((fr ++ l).get? (i + 2)) ((1:α)/2) &&
      jsLt ((fr ++ l).get? (i + 3)) (-(3/10))) ∘ ((fun j => j * 13) ∘ Nat.succ))
    (q := (fun i => jsGt (l.get? (i + 2)) ((1:α)/2) &&
      jsLt (l.get? (i + 3)) (-(3/10))) ∘ (fun j => j * 13))
    (by
      intro j _
      simp only [Function.comp_apply]
      rw [show Nat.succ j * 13 + 2 = (j + 1) * 13 + 2 from rfl, hstep2 j,
        show Nat.succ j * 13 + 3 = (j + 1) * 13 + 3 from rfl, hstep3 j])
  rw [hcong]
  congr 1
  simp only [Nat.zero_mul, Nat.zero_add, h2, h3, frameMatches]

lemma wheezeCount_flatten (frames : List (List α)) (h : ∀ fr ∈ frames, fr.length = 13) :
    wheezeCount frames.flatten = matchingFrames frames := by
  induction frames with
  | nil => simp [wheezeCount, matchingFrames]
  | cons fr t ih =>
    rw [List.flatten_cons, wheezeCount_frame_append fr t.flatten (h fr (by simp)),
      matchingFrames, List.countP_cons, ← matchingFrames,
      ih (fun x hx => h x (List.mem_cons_of_mem fr hx))]

lemma flatten_length_13 {β : Type} (frames : List (List β))
    (h : ∀ fr ∈ frames, fr.length = 13) :
    frames.flatten.length = 13 * frames.length := by
  induction frames with
  | nil => rfl
  | cons fr t ih =>
    rw [List.flatten_cons, List.length_append, h fr (by simp),
      ih (fun x hx => h x (List.mem_cons_of_mem fr hx)), List.length_cons]
    ring

/-- Concrete evaluation of the classifier at `recW6`. -/
lemma predictW6_conditions : (predict 0 recW6).conditions =
    [{ name := "COVID-19", probability := 60, confidence := "medium" },
     { name := "Bronchitis", probability := 20, confidence := "low" },
     { name := "Pneumonia", probability := 20, confidence := "low" },
     { name := "Asthma", probability := 0, confidence := "low" }] := by
  norm_num [predict, mkConditions, sortCondsDesc, insertCondDesc, covidScore,
    asthmaScore, bronchitisScore, pneumoniaScore, confBand, recW6,
    detectWheezing, wheezeCount, jsGt, jsLt]

/-- Concrete evaluation of the classifier at `recW3`. -/
lemma predictW3_conditions : (predict 0 recW3).conditions =
    [{ name := "Bronchitis", probability := 500/13, confidence := "medium" },
     { name := "Pneumonia", probability := 500/13, confidence := "medium" },
     { name := "COVID-19", probability := 300/13, confidence := "low" },
     { name := "Asthma", probability := 0, confidence := "low" }] := by
  norm_num [predict, mkConditions, sortCondsDesc, insertCondDesc, covidScore,
    asthmaScore, bronchitisScore, pneumoniaScore, confBand, recW3,
    detectWheezing, wheezeCount, jsGt, jsLt]

end ClassifierLemmas

/-! ## Claims about the classifier -/

section ClassifierClaims

/-- C9: the classifier is deterministic: two calls of `predict` on the same
analysis record agree on every field except the result timestamp. -/
theorem claim9_deterministic {α : Type} [LinearOrderedField α] (t₁ t₂ : ℤ)
    (a : CoughAnalysis α) :
    (predict t₁ a).conditions = (predict t₂ a).conditions ∧
    (predict t₁ a).dominantCondition = (predict t₂ a).dominantCondition ∧
    (predict t₁ a).overallConfidence = (predict t₂ a).overallConfidence :=
  ⟨rfl, rfl, rfl⟩

/-- Witness for C9 at a concrete record and two distinct timestamps. -/
theorem claim9_deterministic_witness :
    (predict 1 nanRec).conditions = (predict 2 nanRec).conditions ∧
    (predict 1 nanRec).dominantCondition = (predict 2 nanRec).dominantCondition ∧
    (predict 1 nanRec).overallConfidence = (predict 2 nanRec).overallConfidence :=
  claim9_deterministic 1 2 nanRec

/-- C6: whenever at least one raw condition score is nonzero, the output
probabilities of `predict` sum to exactly 100 (so a fortiori within any
floating-point tolerance). -/
theorem claim6_normalization {α : Type} [LinearOrderedField α] (now : ℤ)
    (a : CoughAnalysis α)
    (h : covidScore a ≠ 0 ∨ asthmaScore a ≠ 0 ∨ bronchitisScore a ≠ 0 ∨
      pneumoniaScore a ≠ 0) :
    (((predict now a).conditions).map (fun c => c.probability)).sum = 100 := by
  apply predict_probSum
  rw [mkConditions_prob_sum]
  have n1 : (0:α) ≤ min (covidScore a) (19/20) :=
    le_min (covidScore_nonneg a) (by norm_num)
  have n2 : (0:α) ≤ min (asthmaScore a) (19/20) :=
    le_min (asthmaScore_nonneg a) (by norm_num)
  have n3 : (0:α) ≤ min (bronchitisScore a) (19/20) :=
    le_min (bronchitisScore_nonneg a) (by norm_num)
  have n4 : (0:α) ≤ min (pneumoniaScore a) (19/20) :=
    le_min (pneumoniaScore_nonneg a) (by norm_num)
  rcases h with h | h | h | h
  · have : (0:α) < min (covidScore a) (19/20) :=
      lt_min ((covidScore_nonneg a).lt_of_ne (Ne.symm h)) (by norm_num)
    linarith
  · have : (0:α) < min (asthmaScore a) (19/20) :=
      lt_min ((asthmaScore_nonneg a).lt_of_ne (Ne.symm h)) (by norm_num)
    linarith
  · have : (0:α) < min (bronchitisScore a) (19/20) :=
      lt_min ((bronchitisScore_nonneg a).lt_of_ne (Ne.symm h)) (by norm_num)
    linarith
  · have : (0:α) < min (pneumoniaScore a) (19/20) :=
      lt_min ((pneumoniaScore_nonneg a).lt_of_ne (Ne.symm h)) (by norm_num)
    linarith

/-- Witness for C6 at a concrete record with a nonzero COVID-19 score. -/
theorem claim6_normalization_witness :
    (covidScore recW6 ≠ 0 ∨ asthmaScore recW6 ≠ 0 ∨ bronchitisScore recW6 ≠ 0 ∨
      pneumoniaScore recW6 ≠ 0) ∧
    (((predict 0 recW6).conditions).map (fun c => c.probability)).sum = 100 :=
  ⟨Or.inl (by norm_num [covidScore, recW6, jsGt, jsLt]),
    claim6_normalization 0 recW6 (Or.inl (by norm_num [covidScore, recW6, jsGt, jsLt]))⟩

/-- C3 (amended): if all four raw scores are zero, the probabilities all stay
zero, but the dominant condition is "COVID-19" (the first pushed condition,
kept first by the stable sort), never the sentinel "Unknown": the conditions
list always contains the four fixed conditions. -/
theorem claim3_amended {α : Type} [LinearOrderedField α] (now : ℤ)
    (a : CoughAnalysis α) (h1 : covidScore a = 0) (h2 : asthmaScore a = 0)
    (h3 : bronchitisScore a = 0) (h4 : pneumoniaScore a = 0) :
    (∀ c ∈ (predict now a).conditions, c.probability = 0) ∧
    (predict now a).dominantCondition = "COVID-19" := by
  have hmin : min (0:α) (19/20) = 0 := min_eq_left (by norm_num)
  have hmk : mkConditions a =
      [{ name := "COVID-19", probability := 0, confidence := confBand (0:α) },
       { name := "Asthma", probability := 0, confidence := confBand (0:α) },
       { name := "Bronchitis", probability := 0, confidence := confBand (0:α) },
       { name := "Pneumonia", probability := 0, confidence := confBand (0:α) }] := by
    simp [mkConditions, h1, h2, h3, h4, hmin]
  have hsort : sortCondsDesc
      ([{ name := "COVID-19", probability := 0, confidence := confBand (0:α) },
        { name := "Asthma", probability := 0, confidence := confBand (0:α) },
        { name := "Bronchitis", probability := 0, confidence := confBand (0:α) },
        { name := "Pneumonia", probability := 0, confidence := confBand (0:α) }] :
        List (ConditionProbability α)) =
      [{ name := "COVID-19", probability := 0, confidence := confBand (0:α) },
       { name := "Asthma", probability := 0, confidence := confBand (0:α) },
       { name := "Bronchitis", probability := 0, confidence := confBand (0:α) },
       { name := "Pneumonia", probability := 0, confidence := confBand (0:α) }] := by
    simp [sortCondsDesc, insertCondDesc, lt_self_iff_false]
  constructor
  · intro c hc
    simp only [predict, hmk, hsort] at hc
    rw [if_neg (by norm_num)] at hc
    simp only [List.mem_cons, List.not_mem_nil, or_false] at hc
    rcases hc with h | h | h | h <;> subst h <;> rfl
  · simp only [predict, hmk, hsort]
    rw [if_neg (by norm_num)]
    rfl

/-- Witness for C3 (amended) at the all-NaN record, whose four raw scores
are all zero. -/
theorem claim3_amended_witness :
    (covidScore nanRec = 0 ∧ asthmaScore nanRec = 0 ∧ bronchitisScore nanRec = 0 ∧
      pneumoniaScore nanRec = 0) ∧
    ((∀ c ∈ (predict 0 nanRec).conditions, c.probability = 0) ∧
      (predict 0 nanRec).dominantCondition = "COVID-19") :=
  ⟨⟨by norm_num [covidScore, nanRec],
    by norm_num [asthmaScore, nanRec, detectWheezing, wheezeCount],
    by norm_num [bronchitisScore, nanRec],
    by norm_num [pneumoniaScore, nanRec]⟩,
    claim3_amended 0 nanRec (by norm_num [covidScore, nanRec])
      (by norm_num [asthmaScore, nanRec, detectWheezing, wheezeCount])
      (by norm_num [bronchitisScore, nanRec])
      (by norm_num [pneumoniaScore, nanRec])⟩

/-- Counterexample to C3 as stated: at the all-NaN record, every raw score is
zero, yet the dominant condition reported by `predict` is "COVID-19", not the
sentinel "Unknown". -/
theorem claim3_counterexample :
    covidScore nanRec = 0 ∧ asthmaScore nanRec = 0 ∧ bronchitisScore nanRec = 0 ∧
    pneumoniaScore nanRec = 0 ∧
    (predict 0 nanRec).dominantCondition = "COVID-19" ∧
    (predict 0 nanRec).dominantCondition ≠ "Unknown" := by
  have hdom : (predict 0 nanRec).dominantCondition = "COVID-19" := by
    norm_num [predict, mkConditions, sortCondsDesc, insertCondDesc, covidScore,
      asthmaScore, bronchitisScore, pneumoniaScore, confBand, nanRec,
      detectWheezing, wheezeCount]
  exact ⟨by norm_num [covidScore, nanRec],
    by norm_num [asthmaScore, nanRec, detectWheezing, wheezeCount],
    by norm_num [bronchitisScore, nanRec],
    by norm_num [pneumoniaScore, nanRec],
    hdom, by rw [hdom]; decide⟩

/-- C4 (amended): every condition's confidence band comes from the raw
pre-normalization score via strict thresholds: "high" iff s > 0.6, "medium"
iff 0.3 < s ≤ 0.6, "low" iff s ≤ 0.3.  In particular a raw score of exactly
0.6 yields "medium", and a raw score of exactly 0.3 yields "low" (not
"medium"). -/
theorem claim4_amended {α : Type} [LinearOrderedField α] (now : ℤ)
    (a : CoughAnalysis α) :
    (∀ c ∈ (predict now a).conditions, c.confidence = confBand (rawScore a c.name)) ∧
    (∀ s : α, (confBand s = "high" ↔ 3/5 < s) ∧
      (confBand s = "medium" ↔ 3/10 < s ∧ s ≤ 3/5) ∧
      (confBand s = "low" ↔ s ≤ 3/10)) := by
  constructor
  · intro c hc
    rcases predict_conditions_shape now a c hc with ⟨d, hd, hname, hconf⟩
    rw [hconf, hname]
    exact mkConditions_confidence a d hd
  · intro s
    by_cases h1 : (3:α)/5 < s
    · rw [confBand, if_pos h1]
      exact ⟨iff_of_true rfl h1,
        iff_of_false (by decide) (fun hh => absurd h1 (not_lt.2 hh.2)),
        iff_of_false (by decide)
          (fun hh => absurd h1 (not_lt.2 (hh.trans (by norm_num))))⟩
    · by_cases h2 : (3:α)/10 < s
      · rw [confBand, if_neg h1, if_pos h2]
        exact ⟨iff_of_false (by decide) h1,
          iff_of_true rfl ⟨h2, not_lt.1 h1⟩,
          iff_of_false (by decide) (not_le.2 h2)⟩
      · rw [confBand, if_neg h1, if_neg h2]
        exact ⟨iff_of_false (by decide) h1,
          iff_of_false (by decide) (fun hh => h2 hh.1),
          iff_of_true rfl (not_lt.1 h2)⟩

/-- Witness for C4 (amended): at a record with COVID-19 raw score exactly
0.6, the COVID-19 entry of the result carries confidence "medium". -/
theorem claim4_amended_witness :
    ({ name := "COVID-19", probability := 60, confidence := "medium" } :
      ConditionProbability ℚ) ∈ (predict 0 recW6).conditions ∧
    ({ name := "COVID-19", probability := 60, confidence := "medium" } :
      ConditionProbability ℚ).confidence = confBand (rawScore recW6 "COVID-19") :=
  ⟨by rw [predictW6_conditions]; simp,
    (claim4_amended 0 recW6).1 _ (by rw [predictW6_conditions]; simp)⟩

/-- Counterexample to C4 as stated: at a record with COVID-19 raw score
exactly 0.3, the resulting COVID-19 entry has confidence "low", not
"medium". -/
theorem claim4_counterexample :
    covidScore recW3 = 3/10 ∧
    ({ name := "COVID-19", probability := 300/13, confidence := "low" } :
      ConditionProbability ℚ) ∈ (predict 0 recW3).conditions ∧
    ("low" : String) ≠ "medium" :=
  ⟨by norm_num [covidScore, recW3, jsGt, jsLt],
    by rw [predictW3_conditions]; simp, by simp⟩

/-- C7: on a feature set of `numFrames` frames of 13 coefficients, the wheeze
heuristic fires iff the matching-frame count strictly exceeds `numFrames / 2`;
exactly `⌊numFrames/2⌋ + 1` matching frames fire it and exactly
`⌊numFrames/2⌋` do not. -/
theorem claim7_wheeze {α : Type} [LinearOrderedField α] (frames : List (List α))
    (h : ∀ fr ∈ frames, fr.length = 13) :
    (detectWheezing frames.flatten = true ↔
      (frames.length : α) / 2 < (matchingFrames frames : α)) ∧
    (matchingFrames frames = frames.length / 2 + 1 →
      detectWheezing frames.flatten = true) ∧
    (matchingFrames frames = frames.length / 2 →
      detectWheezing frames.flatten = false) := by
  have hcnt := wheezeCount_flatten frames h
  have hlen := flatten_length_13 frames h
  have hiff : detectWheezing frames.flatten = true ↔
      (frames.length : α) / 2 < (matchingFrames frames : α) := by
    rw [detectWheezing, hcnt, hlen, decide_eq_true_eq,
      show ((13 * frames.length : ℕ) : α) / 26 = (frames.length : α) / 2 by
        push_cast; ring]
  refine ⟨hiff, ?_, ?_⟩
  · intro hm
    rw [hiff, hm, div_lt_iff₀ (by norm_num : (0:α) < 2)]
    exact_mod_cast (by omega : frames.length < (frames.length / 2 + 1) * 2)
  · intro hm
    rw [Bool.eq_false_iff, Ne, hiff, hm, not_lt, le_div_iff₀ (by norm_num : (0:α) < 2)]
    exact_mod_cast (by omega : (frames.length / 2) * 2 ≤ frames.length)

/-- Witness for C7 at three frames with two (= ⌊3/2⌋ + 1) matching: the
heuristic fires. -/
theorem claim7_wheeze_witness :
    (∀ fr ∈ frames3, fr.length = 13) ∧ detectWheezing frames3.flatten = true :=
  ⟨by decide, (claim7_wheeze frames3 (by decide)).2.1
    (by norm_num [matchingFrames, frameMatches, frames3, jsGt, jsLt,
      List.countP_cons])⟩

end ClassifierClaims

/-! ## Lemmas about the audio processor -/

section ProcessorLemmas

lemma zipWith_preEmph_zero (a : ℝ) (m k : ℕ) :
    List.zipWith (fun cur prev => cur - a * prev)
      (List.replicate m (0:ℝ)) (List.replicate k 0) = List.replicate (min m k) 0 := by
  induction m generalizing k with
  | zero => simp
  | succ n ih =>
    cases k with
    | zero => simp
    | succ j => simp [List.replicate_succ, ih j, Nat.succ_min_succ]

lemma preEmphasis_replicate (n : ℕ) (a : ℝ) :
    preEmphasis (List.replicate n 0) a = List.replicate n 0 := by
  cases n with
  | zero => rfl
  | succ m =>
    rw [List.replicate_succ, preEmphasis, ← List.replicate_succ,
      zipWith_preEmph_zero, min_eq_left (Nat.le_succ m), ← List.replicate_succ]

lemma preEmphasis_length (x : List ℝ) (a : ℝ) :
    (preEmphasis x a).length = x.length := by
  cases x with
  | nil => rfl
  | cons h t => simp [preEmphasis]

lemma numFramesZ_empty : numFramesZ 0 = -3 := by decide

lemma numFramesZ_1024 : numFramesZ 1024 = -1 := by decide

lemma numFramesZ_44100 : numFramesZ 44100 = 83 := by decide

lemma extract_empty (sr : ℝ) :
    extractMFCCFeatures { samples := [], sampleRate := sr } =
      Except.error (JSError.rangeErrorNegLength (-39)) := by
  unfold extractMFCCFeatures
  simp only [preEmphasis, List.length_nil, numFramesZ_empty]
  rw [if_pos (by norm_num)]
  norm_num

lemma analyze_empty (sr : ℝ) (now : ℤ) :
    analyzeCoughCharacteristics { samples := [], sampleRate := sr } now =
      Except.error (JSError.rangeErrorNegLength (-39)) := by
  unfold analyzeCoughCharacteristics
  rw [extract_empty]
  rfl

lemma flattenPairs_length (f g : ℕ → ℝ) (n : ℕ) :
    (((List.range n).map (fun k => [f k, g k])).flatten).length = 2 * n := by
  induction n with
  | zero => rfl
  | succ m ih =>
    rw [List.range_succ, List.map_append, List.flatten_append, List.length_append, ih]
    simp [Nat.mul_succ]

lemma flattenPairs_get_even (f g : ℕ → ℝ) (n k : ℕ) (hk : k < n) :
    (((List.range n).map (fun i => [f i, g i])).flatten)[2 * k]? = some (f k) := by
  induction n with
  | zero => exact absurd hk (Nat.not_lt_zero k)
  | succ m ih =>
    rw [List.range_succ, List.map_append, List.flatten_append]
    rcases Nat.lt_or_ge k m with h | h
    · rw [List.getElem?_append_left (by rw [flattenPairs_length]; omega)]
      exact ih h
    · have hk' : k = m := by omega
      subst hk'
      rw [List.getElem?_append_right (by rw [flattenPairs_length]),
        flattenPairs_length]
      simp [show 2 * k - 2 * k = 0 by omega]

lemma flattenPairs_get_odd (f g : ℕ → ℝ) (n k : ℕ) (hk : k < n) :
    (((List.range n).map (fun i => [f i, g i])).flatten)[2 * k + 1]? = some (g k) := by
  induction n with
  | zero => exact absurd hk (Nat.not_lt_zero k)
  | succ m ih =>
    rw [List.range_succ, List.map_append, List.flatten_append]
    rcases Nat.lt_or_ge k m with h | h
    · rw [List.getElem?_append_left (by rw [flattenPairs_length]; omega)]
      exact ih h
    · have hk' : k = m := by omega
      subst hk'
      rw [List.getElem?_append_right (by rw [flattenPairs_length]; omega),
        flattenPairs_length]
      simp [show 2 * k + 1 - 2 * k = 1 by omega]

lemma computeFFT_length (x : List ℝ) : (computeFFT x).length = 2 * x.length :=
  flattenPairs_length _ _ _

lemma computeFFT_getElem_even (x : List ℝ) (k : ℕ) (hk : k < x.length) :
    (computeFFT x)[2 * k]? = some (dftRe x k) :=
  flattenPairs_get_even _ _ _ _ hk

lemma computeFFT_getElem_odd (x : List ℝ) (k : ℕ) (hk : k < x.length) :
    (computeFFT x)[2 * k + 1]? = some (dftIm x k) :=
  flattenPairs_get_odd _ _ _ _ hk

lemma computeFFT_getD_even (x : List ℝ) (k : ℕ) (hk : k < x.length) :
    (computeFFT x).getD (2 * k) 0 = dftRe x k := by
  rw [List.getD_eq_getElem?_getD, computeFFT_getElem_even x k hk]
  rfl

lemma computeFFT_getD_odd (x : List ℝ) (k : ℕ) (hk : k < x.length) :
    (computeFFT x).getD (2 * k + 1) 0 = dftIm x k := by
  rw [List.getD_eq_getElem?_getD, computeFFT_getElem_odd x k hk]
  rfl

/-- Envelope bound for the centroid quotient, abstracted over the magnitude
function: the magnitude-weighted average of the frequencies
`i * sr / (2N)`, `i < N`, is in `[0, sr/2)`, and so is the `0` returned on
zero total magnitude. -/
lemma centroid_aux (N : ℕ) (hN : 1 ≤ N) (sr : ℝ) (hsr : 0 < sr) (mag : ℕ → ℝ)
    (hmag : ∀ i, 0 ≤ mag i) :
    0 ≤ (if (∑ i in Finset.range N, mag i) > 0 then
        (∑ i in Finset.range N, ((i:ℝ) * sr / (2 * (N:ℝ))) * mag i) /
          (∑ i in Finset.range N, mag i) else 0) ∧
    (if (∑ i in Finset.range N, mag i) > 0 then
        (∑ i in Finset.range N, ((i:ℝ) * sr / (2 * (N:ℝ))) * mag i) /
          (∑ i in Finset.range N, mag i) else 0) < sr / 2 := by
  have hNpos : (0:ℝ) < N := by exact_mod_cast hN
  by_cases h : (∑ i in Finset.range N, mag i) > 0
  · rw [if_pos h]
    have hws0 : 0 ≤ ∑ i in Finset.range N, ((i:ℝ) * sr / (2 * (N:ℝ))) * mag i := by
      refine Finset.sum_nonneg (fun i _ => mul_nonneg ?_ (hmag i))
      positivity
    have hbound : (∑ i in Finset.range N, ((i:ℝ) * sr / (2 * (N:ℝ))) * mag i) ≤
        (((N:ℝ) - 1) * sr / (2 * (N:ℝ))) * (∑ i in Finset.range N, mag i) := by
      rw [Finset.mul_sum]
      refine Finset.sum_le_sum (fun i hi => ?_)
      refine mul_le_mul_of_nonneg_right ?_ (hmag i)
      have hile : (i:ℝ) ≤ (N:ℝ) - 1 := by
        have := Finset.mem_range.1 hi
        have : (i:ℝ) + 1 ≤ (N:ℝ) := by exact_mod_cast this
        linarith
      have h2N : (0:ℝ) < 2 * (N:ℝ) := by linarith
      rw [div_le_div_iff_of_pos_right h2N]
      exact mul_le_mul_of_nonneg_right hile hsr.le
    have hclt : ((N:ℝ) - 1) * sr / (2 * (N:ℝ)) < sr / 2 := by
      rw [div_lt_div_iff₀ (by linarith) (by norm_num)]
      nlinarith
    constructor
    · exact div_nonneg hws0 h.le
    · calc (∑ i in Finset.range N, ((i:ℝ) * sr / (2 * (N:ℝ))) * mag i) /
          (∑ i in Finset.range N, mag i) ≤ ((N:ℝ) - 1) * sr / (2 * (N:ℝ)) := by
            rw [div_le_iff₀ h]
            exact hbound
        _ < sr / 2 := hclt
  · rw [if_neg h]
    exact ⟨le_refl 0, by linarith⟩

end ProcessorLemmas

/-! ## Claims about the audio processor -/

section ProcessorClaims

/-- C1 (amended): `analyzeCoughCharacteristics` performs no emptiness check.
On an empty waveform, RMS and zero-crossing rate evaluate to the JS value
`0/0` = NaN and the spectral centroid to 0; the call then fails — not fast,
and not with an InvalidInput error — with the RangeError raised when the MFCC
extractor allocates a feature array of negative length `(-3) * 13 = -39`. -/
theorem claim1_amended (sr : ℝ) :
    analyzeCoughCharacteristics { samples := [], sampleRate := sr } 0 =
      Except.error (JSError.rangeErrorNegLength (-39)) ∧
    calculateRMS [] = none ∧
    calculateZeroCrossingRate [] = none ∧
    calculateSpectralCentroid [] sr = 0 := by
  refine ⟨analyze_empty sr 0, rfl, rfl, ?_⟩
  simp [calculateSpectralCentroid, computeFFT]

/-- Witness for C1 (amended) at sample rate 44100. -/
theorem claim1_amended_witness :
    analyzeCoughCharacteristics { samples := [], sampleRate := (44100:ℝ) } 0 =
      Except.error (JSError.rangeErrorNegLength (-39)) ∧
    calculateRMS [] = none ∧
    calculateZeroCrossingRate [] = none ∧
    calculateSpectralCentroid [] 44100 = 0 :=
  claim1_amended 44100

/-- Counterexample to C1 as stated: on the empty waveform the pipeline does
fail, but with the typed-array RangeError from deep inside the MFCC
extractor, not with an InvalidInput validation error. -/
theorem claim1_counterexample :
    analyzeCoughCharacteristics { samples := [], sampleRate := 44100 } 0 =
      Except.error (JSError.rangeErrorNegLength (-39)) ∧
    analyzeCoughCharacteristics { samples := [], sampleRate := 44100 } 0 ≠
      Except.error JSError.invalidInput := by
  refine ⟨analyze_empty 44100 0, ?_⟩
  rw [analyze_empty 44100 0]
  simp

/-- C2 (code bug): for N = 1024 < 2048 the frame count computed by
`extractMFCCFeatures` is `⌊(1024 - 2048) / 512⌋ + 1 = -1`, not 0, and the
extractor throws a RangeError allocating `Float32Array(-13)` instead of
succeeding with an empty feature set.  (For N ≥ 2048 the claim's formula is
the code's; witnessed here by N = 44100 giving 83 frames.) -/
theorem claim2_negative_frames :
    numFramesZ 1024 = -1 ∧
    extractMFCCFeatures { samples := List.replicate 1024 0, sampleRate := 44100 } =
      Except.error (JSError.rangeErrorNegLength (-13)) ∧
    numFramesZ 44100 = ((44100 - 2048) / 512 : ℕ) + 1 := by
  refine ⟨numFramesZ_1024, ?_, by decide⟩
  simp only [extractMFCCFeatures, preEmphasis_replicate, List.length_replicate,
    numFramesZ_1024]
  rw [if_pos (by norm_num)]
  norm_num

/-- C8: the Spectral Transform returns the interleaved direct DFT sums: for a
frame of length N ≥ 1 it yields 2N values with
`out[2k] = Σ x[n]·cos(-2πkn/N)` and `out[2k+1] = Σ x[n]·sin(-2πkn/N)`. -/
theorem claim8_dft (x : List ℝ) (h : 1 ≤ x.length) :
    (computeFFT x).length = 2 * x.length ∧
    ∀ k, k < x.length →
      (computeFFT x).get? (2 * k) =
        some (∑ n in Finset.range x.length,
          x.getD n 0 * Real.cos (-(2 * Real.pi * k * n) / x.length)) ∧
      (computeFFT x).get? (2 * k + 1) =
        some (∑ n in Finset.range x.length,
          x.getD n 0 * Real.sin (-(2 * Real.pi * k * n) / x.length)) := by
  refine ⟨computeFFT_length x, fun k hk => ⟨?_, ?_⟩⟩
  · rw [List.get?_eq_getElem?, computeFFT_getElem_even x k hk]
    congr 1
    unfold dftRe
    refine Finset.sum_congr rfl (fun n _ => ?_)
    ring_nf
  · rw [List.get?_eq_getElem?, computeFFT_getElem_odd x k hk]
    congr 1
    unfold dftIm
    refine Finset.sum_congr rfl (fun n _ => ?_)
    ring_nf

/-- Witness for C8 at the one-sample frame `[1]`. -/
theorem claim8_dft_witness :
    1 ≤ [(1:ℝ)].length ∧
    ((computeFFT [(1:ℝ)]).length = 2 * [(1:ℝ)].length ∧
     ∀ k, k < [(1:ℝ)].length →
       (computeFFT [(1:ℝ)]).get? (2 * k) =
         some (∑ n in Finset.range [(1:ℝ)].length,
           [(1:ℝ)].getD n 0 * Real.cos (-(2 * Real.pi * k * n) / [(1:ℝ)].length)) ∧
       (computeFFT [(1:ℝ)]).get? (2 * k + 1) =
         some (∑ n in Finset.range [(1:ℝ)].length,
           [(1:ℝ)].getD n 0 * Real.sin (-(2 * Real.pi * k * n) / [(1:ℝ)].length))) :=
  ⟨by norm_num, claim8_dft [1] (by norm_num)⟩

/-- C10: for a non-empty waveform (and a positive sample rate) the spectral
centroid lies in `[0, sampleRate / 2)`: it is non-negative and strictly below
the Nyquist frequency. -/
theorem claim10_centroid_range (signal : List ℝ) (sr : ℝ) (h1 : signal ≠ [])
    (h2 : 0 < sr) :
    0 ≤ calculateSpectralCentroid signal sr ∧
    calculateSpectralCentroid signal sr < sr / 2 := by
  have hN : 1 ≤ signal.length := List.length_pos.2 h1
  simp only [calculateSpectralCentroid]
  rw [computeFFT_length, Nat.mul_div_cancel_left _ (by norm_num : 0 < 2)]
  exact centroid_aux signal.length hN sr h2 _ (fun i => Real.sqrt_nonneg _)

/-- Witness for C10 at the one-sample waveform `[1]` with sample rate 2. -/
theorem claim10_centroid_range_witness :
    (([(1:ℝ)] : List ℝ) ≠ [] ∧ (0:ℝ) < 2) ∧
    (0 ≤ calculateSpectralCentroid [(1:ℝ)] 2 ∧
      calculateSpectralCentroid [(1:ℝ)] 2 < 2 / 2) :=
  ⟨⟨by simp, by norm_num⟩, claim10_centroid_range [1] 2 (by simp) (by norm_num)⟩

end ProcessorClaims

/-! ## The end-to-end all-zero waveform run -/

section ZeroWaveLemmas

lemma getD_replicate_zero (n i : ℕ) : (List.replicate n (0:ℝ)).getD i 0 = 0 := by
  rw [List.getD_eq_getElem?_getD, List.getElem?_replicate]
  split <;> rfl

lemma dftRe_replicate_zero (n k : ℕ) : dftRe (List.replicate n 0) k = 0 := by
  unfold dftRe
  rw [List.length_replicate]
  exact Finset.sum_eq_zero (fun j _ => by rw [getD_replicate_zero, zero_mul])

lemma dftIm_replicate_zero (n k : ℕ) : dftIm (List.replicate n 0) k = 0 := by
  unfold dftIm
  rw [List.length_replicate]
  exact Finset.sum_eq_zero (fun j _ => by rw [getD_replicate_zero, zero_mul])

lemma applyHammingWindow_replicate_zero (n : ℕ) :
    applyHammingWindow (List.replicate n (0:ℝ)) = List.replicate n 0 := by
  unfold applyHammingWindow
  rw [List.length_replicate]
  have h : ∀ m ∈ List.range n, (List.replicate n (0:ℝ)).getD m 0 *
      (27/50 - 23/50 * Real.cos (2 * Real.pi * m / ((n:ℝ) - 1))) = 0 := by
    intro m _
    rw [getD_replicate_zero, zero_mul]
  rw [List.map_congr_left h, List.map_const', List.length_range]

lemma getD_map_range (f : ℕ → ℝ) (n j : ℕ) (hj : j < n) :
    ((List.range n).map f).getD j 0 = f j := by
  rw [List.getD_eq_getElem?_getD, List.getElem?_map, List.getElem?_range hj]
  rfl

/-- The cosines at the M midpoint angles `2π(j + 1/2)/M` sum to zero. -/
lemma sum_cos_midpoints (M : ℕ) (hM : 2 ≤ M) :
    ∑ j in Finset.range M, Real.cos (2 * Real.pi * ((j:ℝ) + 1/2) / M) = 0 := by
  have hMpos : (0:ℝ) < M := by exact_mod_cast (by omega : 0 < M)
  have hM0 : (M:ℝ) ≠ 0 := ne_of_gt hMpos
  have hMgt1 : (1:ℝ) < M := by exact_mod_cast (by omega : 1 < M)
  have hsin : 0 < Real.sin (Real.pi / M) := by
    apply Real.sin_pos_of_pos_of_lt_pi
    · exact div_pos Real.pi_pos hMpos
    · exact div_lt_self Real.pi_pos hMgt1
  have key : ∀ j : ℕ,
      Real.sin (2 * Real.pi * (((j + 1 : ℕ)):ℝ) / M) -
        Real.sin (2 * Real.pi * ((j:ℕ):ℝ) / M) =
      2 * Real.sin (Real.pi / M) * Real.cos (2 * Real.pi * ((j:ℝ) + 1/2) / M) := by
    intro j
    push_cast
    rw [Real.sin_sub_sin]
    have e1 : (2 * Real.pi * ((j:ℝ) + 1) / M - 2 * Real.pi * (j:ℝ) / M) / 2 =
        Real.pi / M := by ring
    have e2 : (2 * Real.pi * ((j:ℝ) + 1) / M + 2 * Real.pi * (j:ℝ) / M) / 2 =
        2 * Real.pi * ((j:ℝ) + 1/2) / M := by ring
    rw [e1, e2]
  have hsum : ∑ j in Finset.range M,
      2 * Real.sin (Real.pi / M) * Real.cos (2 * Real.pi * ((j:ℝ) + 1/2) / M) = 0 := by
    rw [Finset.sum_congr rfl (fun j _ => (key j).symm), Finset.sum_range_sub
      (fun j : ℕ => Real.sin (2 * Real.pi * ((j:ℕ):ℝ) / M))]
    rw [show 2 * Real.pi * ((M:ℕ):ℝ) / M = 2 * Real.pi by
      rw [mul_div_assoc, div_self hM0, mul_one]]
    rw [Real.sin_two_pi]
    norm_num
  rw [← Finset.mul_sum] at hsum
  exact (mul_eq_zero.1 hsum).resolve_left (ne_of_gt (by linarith))

/-- The MFCC vector of an all-zero frame: the power spectrum is identically
zero, so every coefficient is the cosine projection of the constant
`log(1e-10)`. -/
lemma computeMFCC_replicate_zero (sr : ℝ) :
    computeMFCC (List.replicate 2048 0) sr =
      (List.range 13).map (fun c : ℕ =>
        ∑ j in Finset.range 2048,
          Real.log (1 / 10 ^ 10) * Real.cos (Real.pi * (c:ℝ) * ((j:ℝ) + 1/2) / 2048)) := by
  simp only [computeMFCC]
  rw [computeFFT_length, List.length_replicate,
    show 2 * 2048 / 2 = 2048 by norm_num]
  refine List.map_congr_left (fun c _ => ?_)
  refine Finset.sum_congr rfl (fun j hj => ?_)
  rw [getD_map_range _ _ _ (Finset.mem_range.1 hj),
    computeFFT_getD_even _ _ (by rw [List.length_replicate]; exact Finset.mem_range.1 hj),
    computeFFT_getD_odd _ _ (by rw [List.length_replicate]; exact Finset.mem_range.1 hj),
    dftRe_replicate_zero, dftIm_replicate_zero]
  norm_num

lemma zeroFrameMfcc_length : zeroFrameMfcc.length = 13 := by
  unfold zeroFrameMfcc
  simp only [computeMFCC]
  rw [List.length_map, List.length_range]

lemma zeroFrameMfcc_coeff2 : zeroFrameMfcc[2]? = some 0 := by
  unfold zeroFrameMfcc
  rw [computeMFCC_replicate_zero 44100, List.getElem?_map,
    List.getElem?_range (by norm_num : 2 < 13)]
  simp only [Option.map_some', Option.some_inj]
  have hangle : ∀ j ∈ Finset.range 2048,
      Real.log (1 / 10 ^ 10) * Real.cos (Real.pi * ((2:ℕ):ℝ) * ((j:ℝ) + 1/2) / 2048) =
      Real.log (1 / 10 ^ 10) * Real.cos (2 * Real.pi * ((j:ℝ) + 1/2) / 2048) := by
    intro j _
    congr 2
    push_cast
    ring
  rw [Finset.sum_congr rfl hangle, ← Finset.mul_sum]
  have hs := sum_cos_midpoints 2048 (by norm_num)
  push_cast at hs
  rw [hs, mul_zero]

lemma flatten_replicate_get (v : List ℝ) (hv : v.length = 13) (n j r : ℕ)
    (hj : j < n) (hr : r < 13) :
    ((List.replicate n v).flatten)[13 * j + r]? = v[r]? := by
  induction j generalizing n with
  | zero =>
    cases n with
    | zero => omega
    | succ m =>
      rw [List.replicate_succ, List.flatten_cons,
        List.getElem?_append_left (by omega)]
      congr 1
      omega
  | succ i ih =>
    cases n with
    | zero => omega
    | succ m =>
      rw [List.replicate_succ, List.flatten_cons,
        List.getElem?_append_right (by omega)]
      rw [show 13 * (i + 1) + r - v.length = 13 * i + r by omega]
      exact ih m (by omega)

lemma zeroMfccFeatures_length : zeroMfccFeatures.length = 1079 := by
  unfold zeroMfccFeatures
  rw [List.length_flatten, List.map_replicate, zeroFrameMfcc_length,
    List.sum_replicate, smul_eq_mul]

lemma detectWheezing_zeroMfcc : detectWheezing zeroMfccFeatures = false := by
  have hcount : wheezeCount zeroMfccFeatures = 0 := by
    unfold wheezeCount
    rw [zeroMfccFeatures_length, show (1079 + 12) / 13 = 83 by norm_num]
    refine List.countP_eq_zero.2 (fun i hi => ?_)
    rcases List.mem_map.1 hi with ⟨j, hj, rfl⟩
    have hj83 : j < 83 := List.mem_range.1 hj
    have hget : zeroMfccFeatures.get? (j * 13 + 2) = some 0 := by
      rw [List.get?_eq_getElem?, show j * 13 + 2 = 13 * j + 2 by ring]
      unfold zeroMfccFeatures
      rw [flatten_replicate_get zeroFrameMfcc zeroFrameMfcc_length 83 j 2 hj83
        (by norm_num)]
      exact zeroFrameMfcc_coeff2
    simp only [hget, jsGt_some]
    rw [decide_eq_false (by norm_num : ¬((1:ℝ)/2 < 0))]
    simp
  unfold detectWheezing
  rw [hcount, zeroMfccFeatures_length]
  exact decide_eq_false (by push_cast; norm_num)

lemma rms_zeroWave : calculateRMS (List.replicate 44100 0) = some 0 := by
  unfold calculateRMS
  rw [if_neg (by rw [List.length_replicate]; omega)]
  rw [List.map_replicate]
  norm_num [List.sum_replicate]

lemma zcr_zeroWave : calculateZeroCrossingRate (List.replicate 44100 0) = some 0 := by
  unfold calculateZeroCrossingRate
  rw [if_neg (by rw [List.length_replicate]; omega)]
  have hc : ((List.replicate 44100 (0:ℝ)).zip (List.replicate 44100 (0:ℝ)).tail).countP
      (fun p => decide (0 ≤ p.2) != decide (0 ≤ p.1)) = 0 := by
    refine List.countP_eq_zero.2 (fun p hp => ?_)
    rcases p with ⟨a, b⟩
    rcases List.of_mem_zip hp with ⟨h1, h2⟩
    have e1 : a = 0 := List.eq_of_mem_replicate h1
    have e2 : b = 0 := by
      rw [List.tail_replicate] at h2
      exact List.eq_of_mem_replicate h2
    simp [e1, e2]
  rw [hc]
  norm_num

lemma centroid_zeroWave : calculateSpectralCentroid (List.replicate 44100 0) 44100 = 0 := by
  simp only [calculateSpectralCentroid]
  rw [computeFFT_length, List.length_replicate,
    Nat.mul_div_cancel_left _ (by norm_num : 0 < 2)]
  have hmag : ∀ i ∈ Finset.range 44100,
      Real.sqrt ((computeFFT (List.replicate 44100 (0:ℝ))).getD (2 * i) 0 *
        (computeFFT (List.replicate 44100 (0:ℝ))).getD (2 * i) 0 +
        (computeFFT (List.replicate 44100 (0:ℝ))).getD (2 * i + 1) 0 *
        (computeFFT (List.replicate 44100 (0:ℝ))).getD (2 * i + 1) 0) = 0 := by
    intro i hi
    rw [computeFFT_getD_even _ _ (by rw [List.length_replicate]; exact Finset.mem_range.1 hi),
      computeFFT_getD_odd _ _ (by rw [List.length_replicate]; exact Finset.mem_range.1 hi),
      dftRe_replicate_zero, dftIm_replicate_zero]
    norm_num
  rw [Finset.sum_congr rfl hmag, Finset.sum_const_zero, if_neg (by norm_num)]

lemma extract_zeroWave : extractMFCCFeatures zeroWave = Except.ok zeroMfccFeatures := by
  simp only [extractMFCCFeatures, zeroWave]
  rw [preEmphasis_replicate, List.length_replicate, numFramesZ_44100,
    if_neg (by norm_num : ¬(83:ℤ) < 0)]
  refine congrArg Except.ok ?_
  rw [show ((83:ℤ)).toNat = 83 from rfl]
  unfold zeroMfccFeatures
  refine congrArg List.flatten ?_
  refine List.eq_replicate_iff.2 ⟨by rw [List.length_map, List.length_range], fun b hb => ?_⟩
  rcases List.mem_map.1 hb with ⟨f, hf, rfl⟩
  have hf83 : f < 83 := List.mem_range.1 hf
  rw [List.drop_replicate, List.take_replicate,
    min_eq_left (by omega : 2048 ≤ 44100 - f * 512),
    applyHammingWindow_replicate_zero]
  rfl

lemma analyze_zeroWave : analyzeCoughCharacteristics zeroWave 0 = Except.ok zeroRec := by
  unfold analyzeCoughCharacteristics
  rw [extract_zeroWave]
  simp only [Except.map]
  have hdur : zeroWave.duration = 1 := by
    unfold Waveform.duration zeroWave
    norm_num
  rw [show zeroWave.samples = List.replicate 44100 0 from rfl,
    show zeroWave.sampleRate = 44100 from rfl, hdur, rms_zeroWave, zcr_zeroWave,
    centroid_zeroWave]
  rfl

lemma covidScore_zeroRec : covidScore zeroRec = 1/2 := by
  norm_num [covidScore, zeroRec, jsGt, jsLt]

lemma asthmaScore_zeroRec : asthmaScore zeroRec = 3/10 := by
  norm_num [asthmaScore, zeroRec, jsGt, jsLt, detectWheezing_zeroMfcc]

lemma bronchitisScore_zeroRec : bronchitisScore zeroRec = 1/2 := by
  norm_num [bronchitisScore, zeroRec, jsGt, jsLt]

lemma pneumoniaScore_zeroRec : pneumoniaScore zeroRec = 1/2 := by
  norm_num [pneumoniaScore, zeroRec, jsGt, jsLt]

lemma predict_zeroRec_conditions : (predict 0 zeroRec).conditions =
    [{ name := "COVID-19", probability := 250/9, confidence := "medium" },
     { name := "Bronchitis", probability := 250/9, confidence := "medium" },
     { name := "Pneumonia", probability := 250/9, confidence := "medium" },
     { name := "Asthma", probability := 50/3, confidence := "low" }] := by
  norm_num [predict, mkConditions, sortCondsDesc, insertCondDesc, confBand,
    covidScore_zeroRec, asthmaScore_zeroRec, bronchitisScore_zeroRec,
    pneumoniaScore_zeroRec]

lemma predict_zeroRec_dominant : (predict 0 zeroRec).dominantCondition = "COVID-19" := by
  norm_num [predict, mkConditions, sortCondsDesc, insertCondDesc, confBand,
    covidScore_zeroRec, asthmaScore_zeroRec, bronchitisScore_zeroRec,
    pneumoniaScore_zeroRec]

end ZeroWaveLemmas

section Claim5

/-- C5 (amended): the 1-second 44100 Hz all-zero waveform yields duration 1,
RMS 0, ZCR 0 and spectral centroid 0, but the zero statistics themselves fire
threshold rules (`rms < 0.1`, `centroid < 1500`, `centroid < 2000`,
`zcr < 0.08`), so the raw scores are COVID-19 0.5, Asthma 0.3, Bronchitis 0.5
and Pneumonia 0.5 — not zero-except-duration-rules.  The dominant condition
is "COVID-19" and the probabilities sum to 100. -/
theorem claim5_amended :
    analyzeCoughCharacteristics zeroWave 0 = Except.ok zeroRec ∧
    zeroRec.duration = some 1 ∧ zeroRec.rms = some 0 ∧
    zeroRec.zeroCrossingRate = some 0 ∧ zeroRec.spectralCentroid = some 0 ∧
    covidScore zeroRec = 1/2 ∧ asthmaScore zeroRec = 3/10 ∧
    bronchitisScore zeroRec = 1/2 ∧ pneumoniaScore zeroRec = 1/2 ∧
    (predict 0 zeroRec).dominantCondition = "COVID-19" ∧
    ((predict 0 zeroRec).conditions.map (fun c => c.probability)).sum = 100 :=
  ⟨analyze_zeroWave, rfl, rfl, rfl, rfl, covidScore_zeroRec, asthmaScore_zeroRec,
    bronchitisScore_zeroRec, pneumoniaScore_zeroRec, predict_zeroRec_dominant,
    by rw [predict_zeroRec_conditions]; norm_num⟩

/-- Counterexample to C5 as stated: on the all-zero waveform's record, the
Asthma duration rule (`duration > 1.0`) does not fire, yet the Asthma raw
score is 0.3 (from the centroid rule), not 0; likewise the COVID-19 score is
0.5, not the 0.3 its duration rule alone would give. -/
theorem claim5_counterexample :
    analyzeCoughCharacteristics zeroWave 0 = Except.ok zeroRec ∧
    jsGt zeroRec.duration 1 = false ∧
    asthmaScore zeroRec = 3/10 ∧ ((3:ℝ)/10) ≠ 0 ∧
    covidScore zeroRec = 1/2 ∧ ((1:ℝ)/2) ≠ 3/10 :=
  ⟨analyze_zeroWave, by norm_num [jsGt, zeroRec], asthmaScore_zeroRec,
    by norm_num, covidScore_zeroRec, by norm_num⟩

end Claim5

end EarCheck
